import Mathlib

/-!
Shallow embedding of the sport-match-manager backend
(src/main.py and src/models.py).

The repository is a FastAPI + SQLModel CRUD service.  The embedding models:

* the `Match` table row (`MatchRow`), the request body model `MatchCreate`
  (pydantic, with per-field set/unset tracking as pydantic records it in
  `__fields_set__`), and the response model `MatchPydantic`;
* the JSON text codec used for the six list-valued columns
  (`json.dumps(v) if v else None` on write, `json.loads(s) if s else None`
  on read);
* the request handlers `create_match`, `update_match`, `get_matches` and
  `get_tournament_matches`, including the fact that every handler wraps its
  whole body in `try: ... except Exception as e: raise HTTPException(500, ...)`,
  so that even the `HTTPException(400/404)` the body itself raises is caught
  and re-surfaced to the client as a 500;
* pydantic v1 response validation: `MatchPydantic(**db_match.dict())` in
  `create_match` feeds the raw JSON-text column into an `Optional[List[str]]`
  field, which pydantic v1 rejects (a `str` is not a valid list).

Time is modelled as an integer count of seconds (`timedelta(minutes=5)`
becomes `300`); `datetime.isoformat` is modelled by an injective rendering to
text and ISO parsing by its inverse.  Error-detail strings keep the fixed
prefix of the source's f-strings; the interpolated timestamp suffixes are
omitted, as no claim depends on them.
-/

/-- Characters escaped by `json.dumps` inside a string literal.  The model
keeps the two escapes that matter for round-tripping arbitrary player names
(double quote and backslash); the `\uXXXX` escapes CPython additionally emits
for control and non-ASCII characters are omitted, as they do not affect the
round-trip property or any other claim. -/
def escChar (c : Char) : List Char :=
  if c = '"' ∨ c = '\\' then ['\\', c] else [c]

/-- `json.dumps` of a single string: a quoted, escaped character sequence. -/
def strEncChars (s : String) : List Char :=
  '"' :: ((s.data.flatMap escChar) ++ ['"'])

/-- The interior of `json.dumps` of a list of strings, with the default
CPython separator (comma followed by a space). -/
def bodyChars : List String → List Char
  | [] => []
  | [x] => strEncChars x
  | x :: xs => strEncChars x ++ (',' :: ' ' :: bodyChars xs)

/-- `json.dumps` of a list of strings. -/
def dumpsList (xs : List String) : String :=
  String.mk ('[' :: (bodyChars xs ++ [']']))

/-- Parse the remainder of a JSON string literal (the opening quote already
consumed): stops at an unescaped closing quote, takes the character after a
backslash literally.  This covers exactly the escape grammar `dumpsList`
emits.  Fuel-indexed so the definition is structurally recursive and
kernel-evaluable; the fuel bounds the number of decoded characters. -/
def parseStringChars : Nat → List Char → Option (List Char × List Char)
  | 0, _ => none
  | _ + 1, [] => none
  | fuel + 1, c :: rest =>
    if c = '"' then some ([], rest)
    else if c = '\\' then
      match rest with
      | [] => none
      | d :: rest2 =>
        match parseStringChars fuel rest2 with
        | none => none
        | some (s, r) => some (d :: s, r)
    else
      match parseStringChars fuel rest with
      | none => none
      | some (s, r) => some (c :: s, r)

/-- Parse a non-empty comma-space separated sequence of JSON string literals
followed by a closing bracket (fuel-indexed; one unit of fuel per item). -/
def parseItems : Nat → List Char → Option (List String × List Char)
  | 0, _ => none
  | fuel + 1, cs =>
    match cs with
    | '"' :: cs2 =>
      match parseStringChars (cs2.length + 1) cs2 with
      | none => none
      | some (s, rest) =>
        match rest with
        | ']' :: rest2 => some ([String.mk s], rest2)
        | ',' :: ' ' :: rest2 =>
          match parseItems fuel rest2 with
          | none => none
          | some (ss, rest3) => some (String.mk s :: ss, rest3)
        | _ => none
    | _ => none

/-- `json.loads` restricted to JSON arrays of strings — the only shape this
backend ever stores in the list columns.  `none` models `json.loads`
raising on malformed input. -/
def loadsList (s : String) : Option (List String) :=
  match s.data with
  | '[' :: cs =>
    if cs = [']'] then some []
    else
      match parseItems (cs.length + 1) cs with
      | some (ss, []) => some ss
      | _ => none
  | _ => none

/-- Encoding of one list-valued sub-field on write:
`json.dumps(v) if v else None` — a Python `None` and an empty list are both
falsy and stored as NULL. -/
def encodeField : Option (List String) → Option String
  | none => none
  | some [] => none
  | some xs => some (dumpsList xs)

/-- Decoding of one list-valued column on read:
`json.loads(s) if s else None`.  The outer `Option` models the possibility of
`json.loads` raising on malformed text (surfaced as a 500 by the handler);
`some none` is a stored NULL (or empty text, which is falsy in Python). -/
def decodeField : Option String → Option (Option (List String))
  | none => some none
  | some s => if s = "" then some none else (loadsList s).map some

theorem length_le_flatMap_escChar (s : List Char) :
    s.length ≤ (s.flatMap escChar).length := by
  induction s with
  | nil => simp
  | cons c cs ih =>
    rw [List.flatMap_cons, List.length_append, List.length_cons]
    have h1 : 1 ≤ (escChar c).length := by
      by_cases h : c = '"' ∨ c = '\\' <;> simp [escChar, h]
    omega

theorem parseStringChars_enc (s : List Char) :
    ∀ fuel, s.length + 1 ≤ fuel → ∀ rest,
      parseStringChars fuel ((s.flatMap escChar) ++ ('"' :: rest)) = some (s, rest) := by
  induction s with
  | nil =>
    intro fuel hf rest
    cases fuel with
    | zero => simp at hf
    | succ f => simp [parseStringChars]
  | cons c cs ih =>
    intro fuel hf rest
    cases fuel with
    | zero => simp at hf
    | succ f =>
      have hcs : cs.length + 1 ≤ f := by
        simp only [List.length_cons] at hf
        omega
      by_cases h : c = '"' ∨ c = '\\'
      · have h1 : ((c :: cs).flatMap escChar) = '\\' :: c :: (cs.flatMap escChar) := by
          simp [escChar, h]
        rw [h1]
        simp [parseStringChars, ih f hcs rest]
      · push_neg at h
        have h1 : ((c :: cs).flatMap escChar) = c :: (cs.flatMap escChar) := by
          simp [escChar, h.1, h.2]
        rw [h1]
        simp [parseStringChars, h.1, h.2, ih f hcs rest]

theorem string_mk_data (s : String) : String.mk s.data = s := rfl

theorem parseStringChars_enc_fill (s : String) (tail : List Char) :
    parseStringChars (((s.data.flatMap escChar) ++ ('"' :: tail)).length + 1)
        ((s.data.flatMap escChar) ++ ('"' :: tail)) = some (s.data, tail) := by
  apply parseStringChars_enc
  have := length_le_flatMap_escChar s.data
  simp only [List.length_append, List.length_cons]
  omega

theorem parseItems_enc (xs : List String) (h : xs ≠ []) :
    ∀ fuel, xs.length ≤ fuel → ∀ rest,
      parseItems fuel (bodyChars xs ++ (']' :: rest)) = some (xs, rest) := by
  induction xs with
  | nil => exact absurd rfl h
  | cons x xs ih =>
    intro fuel hf rest
    cases fuel with
    | zero => simp at hf
    | succ f =>
      cases xs with
      | nil =>
        have hb : bodyChars [x] ++ (']' :: rest) =
            '"' :: ((x.data.flatMap escChar) ++ ('"' :: (']' :: rest))) := by
          simp [bodyChars, strEncChars]
        rw [hb]
        simp only [parseItems]
        rw [parseStringChars_enc_fill x (']' :: rest)]
        rfl
      | cons y ys =>
        have hb : bodyChars (x :: y :: ys) ++ (']' :: rest) =
            '"' :: ((x.data.flatMap escChar) ++
              ('"' :: (',' :: ' ' :: (bodyChars (y :: ys) ++ (']' :: rest))))) := by
          simp [bodyChars, strEncChars]
        rw [hb]
        have hlen : (y :: ys).length ≤ f := by
          simp only [List.length_cons] at hf ⊢
          omega
        simp only [parseItems]
        rw [parseStringChars_enc_fill x (',' :: ' ' :: (bodyChars (y :: ys) ++ (']' :: rest)))]
        simp only [ih (List.cons_ne_nil y ys) f hlen rest]

theorem bodyChars_length (xs : List String) :
    xs.length ≤ (bodyChars xs).length := by
  induction xs with
  | nil => simp [bodyChars]
  | cons x xs ih =>
    cases xs with
    | nil => simp [bodyChars, strEncChars]
    | cons y ys =>
      have hb : bodyChars (x :: y :: ys) =
          strEncChars x ++ (',' :: ' ' :: bodyChars (y :: ys)) := rfl
      have hs : 1 ≤ (strEncChars x).length := by simp [strEncChars]
      rw [hb, List.length_append]
      simp only [List.length_cons] at ih ⊢
      omega

theorem bodyChars_cons_head (y : String) (ys : List String) :
    ∃ t, bodyChars (y :: ys) = '"' :: t := by
  cases ys with
  | nil => exact ⟨(y.data.flatMap escChar) ++ ['"'], rfl⟩
  | cons z zs =>
    exact ⟨((y.data.flatMap escChar) ++ ['"']) ++ (',' :: ' ' :: bodyChars (z :: zs)), by
      simp [bodyChars, strEncChars]⟩

theorem loads_dumps (xs : List String) (h : xs ≠ []) :
    loadsList (dumpsList xs) = some xs := by
  obtain ⟨y, ys, rfl⟩ := List.exists_cons_of_ne_nil h
  obtain ⟨t, ht⟩ := bodyChars_cons_head y ys
  have hne : bodyChars (y :: ys) ++ [']'] ≠ [']'] := by
    rw [ht]
    simp
  have hlen : (y :: ys).length ≤ (bodyChars (y :: ys) ++ [']']).length + 1 := by
    have h2 := bodyChars_length (y :: ys)
    simp only [List.length_cons] at h2 ⊢
    simp only [List.length_append, List.length_cons, List.length_nil]
    omega
  have hitems := parseItems_enc (y :: ys) (List.cons_ne_nil y ys)
    ((bodyChars (y :: ys) ++ [']']).length + 1) hlen []
  unfold loadsList dumpsList
  simp only [hne, if_false]
  rw [hitems]

theorem dumpsList_ne_empty (xs : List String) : dumpsList xs ≠ "" := by
  intro hcontra
  have hdata := congrArg String.data hcontra
  simp [dumpsList] at hdata

theorem dumpsList_ne_brackets (xs : List String) (h : xs ≠ []) :
    dumpsList xs ≠ "[]" := by
  obtain ⟨y, ys, rfl⟩ := List.exists_cons_of_ne_nil h
  obtain ⟨t, ht⟩ := bodyChars_cons_head y ys
  intro hcontra
  have hdata := congrArg String.data hcontra
  simp only [dumpsList, ht] at hdata
  have hlist : ('[' : Char) :: ('"' :: t ++ [']']) = ['[', ']'] := hdata
  simp at hlist

/-- Timestamps (`datetime` values) are modelled as an integer count of UTC
seconds; `timedelta(minutes=5)` is `300`. -/
abbrev Datetime := Int

/-- `datetime.isoformat`: an injective rendering of a timestamp to text.
The exact ISO-8601 spelling is irrelevant to every claim; what matters is
that stored text is the rendering of the original timestamp. -/
def isoformat (t : Datetime) : String := toString t

/-- Accumulate a decimal number from characters (rejecting non-digits). -/
def natOfCharsAux : Nat → List Char → Option Nat
  | acc, [] => some acc
  | acc, c :: cs =>
    if c.isDigit then natOfCharsAux (acc * 10 + (c.toNat - 48)) cs else none

/-- pydantic's parsing of an ISO timestamp string back into a `datetime`
(used when a stored text column is validated against a `datetime` field);
inverse of `isoformat` for the integer rendering this model uses. -/
def fromisoformat (s : String) : Option Datetime :=
  match s.data with
  | [] => none
  | '-' :: rest =>
    match rest with
    | [] => none
    | _ => (natOfCharsAux 0 rest).map (fun n => -(n : Int))
  | ds => (natOfCharsAux 0 ds).map (fun n => (n : Int))

/-- One optional pydantic field of a request body, together with pydantic's
`__fields_set__` tracking: `unset` means the field was absent from the
request JSON (so `dict(exclude_unset=True)` omits it); `set v` means it was
supplied, where `v = none` is an explicit JSON `null`. -/
inductive Patch (α : Type) where
  | unset : Patch α
  | set : Option α → Patch α

/-- The value pydantic's `dict()` reports for the field: the supplied value,
or the model default `d` when the field was never set. -/
def Patch.getD {α : Type} : Patch α → Option α → Option α
  | .unset, d => d
  | .set v, _ => v

/-- The `Match` table row (src/main.py lines 16-48): timestamps stored as
ISO text, the six list-valued sub-fields stored as JSON text or NULL. -/
structure MatchRow where
  id : Option Nat
  tournament_id : Option Nat
  team1 : String
  team2 : String
  date : String
  location : String
  status : String
  score1 : Int
  score2 : Int
  shotsOnGoal1 : Option Int
  shotsOnGoal2 : Option Int
  shotsOnTarget1 : Option Int
  shotsOnTarget2 : Option Int
  yellowCards1 : Option Int
  yellowCards2 : Option Int
  redCards1 : Option Int
  redCards2 : Option Int
  corners1 : Option Int
  corners2 : Option Int
  possession1 : Option Int
  possession2 : Option Int
  start_time : Option String
  duration : Option Int
  goalScorers1 : Option String
  goalScorers2 : Option String
  yellowCardPlayers1 : Option String
  yellowCardPlayers2 : Option String
  redCardPlayers1 : Option String
  redCardPlayers2 : Option String
  match_type : Option String
  referee : Option String
  stage : Option String

/-- The request body model `MatchCreate` (src/models.py lines 5-36).
`team1`, `team2`, `date`, `location`, `status`, `score1`, `score2` are
required, hence always present and always in `__fields_set__`; every
optional field carries its set/unset state.  `start_time`'s set/unset state
is never consulted by the handlers (it is in the `exclude` set of the update
and handled by truthiness only), so only its value is modelled.  The numeric
per-side statistics default to `0`, the rest to `None`. -/
structure MatchCreate where
  tournament_id : Patch Nat
  team1 : String
  team2 : String
  date : Datetime
  location : String
  status : String
  score1 : Int
  score2 : Int
  shotsOnGoal1 : Patch Int
  shotsOnGoal2 : Patch Int
  shotsOnTarget1 : Patch Int
  shotsOnTarget2 : Patch Int
  yellowCards1 : Patch Int
  yellowCards2 : Patch Int
  redCards1 : Patch Int
  redCards2 : Patch Int
  corners1 : Patch Int
  corners2 : Patch Int
  possession1 : Patch Int
  possession2 : Patch Int
  start_time : Option Datetime
  duration : Patch Int
  goalScorers1 : Patch (List String)
  goalScorers2 : Patch (List String)
  yellowCardPlayers1 : Patch (List String)
  yellowCardPlayers2 : Patch (List String)
  redCardPlayers1 : Patch (List String)
  redCardPlayers2 : Patch (List String)
  match_type : Patch String
  referee : Patch String
  stage : Patch String

/-- The response model `MatchPydantic` (src/models.py lines 38-42): the API
shape, with structured timestamps and structured string lists.  Set/unset
tracking is irrelevant for a response, so fields are plain optional values. -/
structure MatchPydantic where
  id : Option Nat
  tournament_id : Option Nat
  team1 : String
  team2 : String
  date : Datetime
  location : String
  status : String
  score1 : Int
  score2 : Int
  shotsOnGoal1 : Option Int
  shotsOnGoal2 : Option Int
  shotsOnTarget1 : Option Int
  shotsOnTarget2 : Option Int
  yellowCards1 : Option Int
  yellowCards2 : Option Int
  redCards1 : Option Int
  redCards2 : Option Int
  corners1 : Option Int
  corners2 : Option Int
  possession1 : Option Int
  possession2 : Option Int
  start_time : Option Datetime
  duration : Option Int
  goalScorers1 : Option (List String)
  goalScorers2 : Option (List String)
  yellowCardPlayers1 : Option (List String)
  yellowCardPlayers2 : Option (List String)
  redCardPlayers1 : Option (List String)
  redCardPlayers2 : Option (List String)
  match_type : Option String
  referee : Option String
  stage : Option String

/-- The `Tournament` table row (src/main.py lines 54-60): the team roster is
kept as JSON text. -/
structure TournamentRow where
  id : Option Nat
  name : String
  location : String
  startDate : String
  endDate : String
  teams : String

/-- The persisted state: the two tables, plus the next auto-assigned Match
primary key.  (`matchRows` is the `match` table; `matches` is a reserved
token in Lean.) -/
structure DB where
  matchRows : List MatchRow
  tournaments : List TournamentRow
  nextMatchId : Nat

/-- An exception escaping a handler body: an explicitly raised
`HTTPException`, a pydantic `ValidationError` (response-model validation),
or a `json.loads` decoding error. -/
inductive PyErr where
  | http : Nat → String → PyErr
  | validation : PyErr
  | jsonDecode : PyErr

/-- The text `str(e)` contributes to the 500 detail.  `str` of a starlette
`HTTPException` is `"{status_code}: {detail}"`; for the other exception
classes the model uses a fixed abbreviation of their message, which no claim
depends on. -/
def strOfPyErr : PyErr → String
  | .http c d => toString c ++ ": " ++ d
  | .validation => "validation error"
  | .jsonDecode => "json decode error"

/-- The error response a client actually receives. -/
structure HErr where
  code : Nat
  detail : String

/-- Every handler wraps its body in
`try: ... except Exception as e: raise HTTPException(status_code=500,
detail=f"Internal server error: {str(e)}")`.  `HTTPException` is an
`Exception` subclass, so the handler's own 400/404 raises are caught here
too and surface to the client as a 500. -/
def finalize {α : Type} : Except PyErr α → Except HErr α
  | .ok v => .ok v
  | .error e => .error ⟨500, "Internal server error: " ++ strOfPyErr e⟩

/-- pydantic v1 validation of a raw list column against `Optional[List[str]]`
as it happens in `create_match`'s `return MatchPydantic(**db_match.dict())`
(src/main.py line 136): the column still holds the JSON **text**.  pydantic
v1's list validator rejects a `str` (strings are deliberately not treated as
sequences), so any non-NULL column makes validation fail. -/
def rawListField : Option String → Option (Option (List String))
  | none => some none
  | some _ => none

/-- pydantic v1 validation of an optional stored timestamp text against
`Optional[datetime]`. -/
def optTimeField : Option String → Option (Option Datetime)
  | none => some none
  | some s => (fromisoformat s).map some

/-- `MatchPydantic(**db_match.dict())` as executed in `create_match`
(src/main.py line 136): no `json.loads` is applied first, so the six list
columns are validated as raw text and any non-NULL one fails validation. -/
def pydanticOfRowRaw (r : MatchRow) : Option MatchPydantic := do
  let d ← fromisoformat r.date
  let st ← optTimeField r.start_time
  let g1 ← rawListField r.goalScorers1
  let g2 ← rawListField r.goalScorers2
  let y1 ← rawListField r.yellowCardPlayers1
  let y2 ← rawListField r.yellowCardPlayers2
  let rc1 ← rawListField r.redCardPlayers1
  let rc2 ← rawListField r.redCardPlayers2
  some { id := r.id, tournament_id := r.tournament_id, team1 := r.team1,
         team2 := r.team2, date := d, location := r.location,
         status := r.status, score1 := r.score1, score2 := r.score2,
         shotsOnGoal1 := r.shotsOnGoal1, shotsOnGoal2 := r.shotsOnGoal2,
         shotsOnTarget1 := r.shotsOnTarget1, shotsOnTarget2 := r.shotsOnTarget2,
         yellowCards1 := r.yellowCards1, yellowCards2 := r.yellowCards2,
         redCards1 := r.redCards1, redCards2 := r.redCards2,
         corners1 := r.corners1, corners2 := r.corners2,
         possession1 := r.possession1, possession2 := r.possession2,
         start_time := st, duration := r.duration,
         goalScorers1 := g1, goalScorers2 := g2,
         yellowCardPlayers1 := y1, yellowCardPlayers2 := y2,
         redCardPlayers1 := rc1, redCardPlayers2 := rc2,
         match_type := r.match_type, referee := r.referee, stage := r.stage }

/-- `MatchPydantic(**{**match.dict(), "goalScorers1": json.loads(...) if ...
else None, ...})` as executed in `get_matches`, `get_tournament_matches` and
`update_match` (src/main.py lines 147-160, 171-184, 227-237): the list
columns are decoded from JSON text before validation.  `none` models an
exception escaping the decode (malformed stored text). -/
def pydanticOfRowJson (r : MatchRow) : Option MatchPydantic := do
  let d ← fromisoformat r.date
  let st ← optTimeField r.start_time
  let g1 ← decodeField r.goalScorers1
  let g2 ← decodeField r.goalScorers2
  let y1 ← decodeField r.yellowCardPlayers1
  let y2 ← decodeField r.yellowCardPlayers2
  let rc1 ← decodeField r.redCardPlayers1
  let rc2 ← decodeField r.redCardPlayers2
  some { id := r.id, tournament_id := r.tournament_id, team1 := r.team1,
         team2 := r.team2, date := d, location := r.location,
         status := r.status, score1 := r.score1, score2 := r.score2,
         shotsOnGoal1 := r.shotsOnGoal1, shotsOnGoal2 := r.shotsOnGoal2,
         shotsOnTarget1 := r.shotsOnTarget1, shotsOnTarget2 := r.shotsOnTarget2,
         yellowCards1 := r.yellowCards1, yellowCards2 := r.yellowCards2,
         redCards1 := r.redCards1, redCards2 := r.redCards2,
         corners1 := r.corners1, corners2 := r.corners2,
         possession1 := r.possession1, possession2 := r.possession2,
         start_time := st, duration := r.duration,
         goalScorers1 := g1, goalScorers2 := g2,
         yellowCardPlayers1 := y1, yellowCardPlayers2 := y2,
         redCardPlayers1 := rc1, redCardPlayers2 := rc2,
         match_type := r.match_type, referee := r.referee, stage := r.stage }

/-- The `Match(...)` row built in `create_match` (src/main.py lines 121-131):
all scalar fields come from `match.dict()` (defaults applied), the timestamp
fields are rendered to text (`start_time` only if truthy), and each list
sub-field is stored as `json.dumps(v) if v else None`.  The id is assigned
by the database on commit. -/
def rowOfCreate (m : MatchCreate) (newId : Nat) : MatchRow :=
  { id := some newId
    tournament_id := m.tournament_id.getD none
    team1 := m.team1
    team2 := m.team2
    date := isoformat m.date
    location := m.location
    status := m.status
    score1 := m.score1
    score2 := m.score2
    shotsOnGoal1 := m.shotsOnGoal1.getD (some 0)
    shotsOnGoal2 := m.shotsOnGoal2.getD (some 0)
    shotsOnTarget1 := m.shotsOnTarget1.getD (some 0)
    shotsOnTarget2 := m.shotsOnTarget2.getD (some 0)
    yellowCards1 := m.yellowCards1.getD (some 0)
    yellowCards2 := m.yellowCards2.getD (some 0)
    redCards1 := m.redCards1.getD (some 0)
    redCards2 := m.redCards2.getD (some 0)
    corners1 := m.corners1.getD (some 0)
    corners2 := m.corners2.getD (some 0)
    possession1 := m.possession1.getD (some 0)
    possession2 := m.possession2.getD (some 0)
    start_time := m.start_time.map isoformat
    duration := m.duration.getD none
    goalScorers1 := encodeField (m.goalScorers1.getD none)
    goalScorers2 := encodeField (m.goalScorers2.getD none)
    yellowCardPlayers1 := encodeField (m.yellowCardPlayers1.getD none)
    yellowCardPlayers2 := encodeField (m.yellowCardPlayers2.getD none)
    redCardPlayers1 := encodeField (m.redCardPlayers1.getD none)
    redCardPlayers2 := encodeField (m.redCardPlayers2.getD none)
    match_type := m.match_type.getD none
    referee := m.referee.getD none
    stage := m.stage.getD none }

/-- The insert+commit part of `create_match`: the row is committed before
the response model is built, so it persists even if building the response
then raises. -/
def create_match_commit (db : DB) (m : MatchCreate) :
    Except PyErr MatchPydantic × DB :=
  let row := rowOfCreate m db.nextMatchId
  let db2 : DB := { db with matchRows := db.matchRows ++ [row],
                            nextMatchId := db.nextMatchId + 1 }
  ((match pydanticOfRowRaw row with
    | some p => Except.ok p
    | none => Except.error PyErr.validation), db2)

/-- `POST /matches/` (src/main.py lines 105-139).  Returns the client-visible
result together with the resulting database state.  The 5-minute check
rejects `match.date < now - 300`; the tournament check runs only when a
`tournament_id` value is present; both raise `HTTPException`s that the
handler's own blanket `except` then converts to a 500. -/
def create_match (db : DB) (m : MatchCreate) (now : Datetime) :
    Except HErr MatchPydantic × DB :=
  let body : Except PyErr MatchPydantic × DB :=
    if m.date < now - 300 then
      (Except.error (PyErr.http 400
        "Cannot create a match more than 5 minutes in the past"), db)
    else
      match m.tournament_id.getD none with
      | some tid =>
        match db.tournaments.find? (fun t => t.id == some tid) with
        | none => (Except.error (PyErr.http 404 "Tournament not found"), db)
        | some _ => create_match_commit db m
      | none => create_match_commit db m
  (finalize body.1, body.2)

/-- The merge step of `update_match` (src/main.py lines 197-221):
`updated_data = match.dict(exclude_unset=True, exclude={"date","start_time"})`
— required fields are always set, optional fields only if supplied; the
status-triggered stamp fires when the incoming status is the in-progress
label and the stored `start_time` is NULL; a truthy `match.date` /
`match.start_time` (a datetime is always truthy in Python) then overrides;
supplied list sub-fields are re-encoded; finally every key in
`updated_data` is written onto the row. -/
def applyUpdate (r : MatchRow) (m : MatchCreate) (now : Datetime) : MatchRow :=
  let st1 : Option String :=
    if m.status = "Идет" ∧ r.start_time = none
    then some (isoformat now) else r.start_time
  let st2 : Option String :=
    match m.start_time with
    | some t => some (isoformat t)
    | none => st1
  { r with
    tournament_id := m.tournament_id.getD r.tournament_id
    team1 := m.team1
    team2 := m.team2
    date := isoformat m.date
    location := m.location
    status := m.status
    score1 := m.score1
    score2 := m.score2
    shotsOnGoal1 := m.shotsOnGoal1.getD r.shotsOnGoal1
    shotsOnGoal2 := m.shotsOnGoal2.getD r.shotsOnGoal2
    shotsOnTarget1 := m.shotsOnTarget1.getD r.shotsOnTarget1
    shotsOnTarget2 := m.shotsOnTarget2.getD r.shotsOnTarget2
    yellowCards1 := m.yellowCards1.getD r.yellowCards1
    yellowCards2 := m.yellowCards2.getD r.yellowCards2
    redCards1 := m.redCards1.getD r.redCards1
    redCards2 := m.redCards2.getD r.redCards2
    corners1 := m.corners1.getD r.corners1
    corners2 := m.corners2.getD r.corners2
    possession1 := m.possession1.getD r.possession1
    possession2 := m.possession2.getD r.possession2
    start_time := st2
    duration := m.duration.getD r.duration
    goalScorers1 :=
      match m.goalScorers1 with
      | .unset => r.goalScorers1
      | .set v => encodeField v
    goalScorers2 :=
      match m.goalScorers2 with
      | .unset => r.goalScorers2
      | .set v => encodeField v
    yellowCardPlayers1 :=
      match m.yellowCardPlayers1 with
      | .unset => r.yellowCardPlayers1
      | .set v => encodeField v
    yellowCardPlayers2 :=
      match m.yellowCardPlayers2 with
      | .unset => r.yellowCardPlayers2
      | .set v => encodeField v
    redCardPlayers1 :=
      match m.redCardPlayers1 with
      | .unset => r.redCardPlayers1
      | .set v => encodeField v
    redCardPlayers2 :=
      match m.redCardPlayers2 with
      | .unset => r.redCardPlayers2
      | .set v => encodeField v
    match_type := m.match_type.getD r.match_type
    referee := m.referee.getD r.referee
    stage := m.stage.getD r.stage }

/-- `PUT /matches/{match_id}` (src/main.py lines 189-240).  The 404 for an
unknown id is raised inside the handler's `try`, so the client sees a 500;
the merged row is committed before the response model is built. -/
def update_match (db : DB) (match_id : Nat) (m : MatchCreate) (now : Datetime) :
    Except HErr MatchPydantic × DB :=
  let body : Except PyErr MatchPydantic × DB :=
    match db.matchRows.find? (fun r => r.id == some match_id) with
    | none => (Except.error (PyErr.http 404 "Match not found"), db)
    | some r =>
      let newRow := applyUpdate r m now
      let newRows := db.matchRows.map
        (fun x => if x.id == some match_id then applyUpdate x m now else x)
      let db2 : DB := { db with matchRows := newRows }
      ((match pydanticOfRowJson newRow with
        | some p => Except.ok p
        | none => Except.error PyErr.jsonDecode), db2)
  (finalize body.1, body.2)

/-- Decode a list of rows into response models, stopping at the first
failure (the Python list comprehension raises out of the handler body). -/
def decodeRows : List MatchRow → Except PyErr (List MatchPydantic)
  | [] => Except.ok []
  | r :: rs =>
    match pydanticOfRowJson r with
    | none => Except.error PyErr.jsonDecode
    | some p =>
      match decodeRows rs with
      | Except.error e => Except.error e
      | Except.ok ps => Except.ok (p :: ps)

/-- `GET /matches/` (src/main.py lines 141-163). -/
def get_matches (db : DB) : Except HErr (List MatchPydantic) :=
  finalize (decodeRows db.matchRows)

/-- `GET /tournaments/{tournament_id}/matches/` (src/main.py lines 165-187):
a plain equality filter on `tournament_id`; the tournament's own existence
is never looked up. -/
def get_tournament_matches (db : DB) (tournament_id : Nat) :
    Except HErr (List MatchPydantic) :=
  finalize (decodeRows
    (db.matchRows.filter (fun r => r.tournament_id == some tournament_id)))

/-- One field of the raw JSON request body: absent, explicit `null`, or a
(well-typed) value. -/
inductive RawVal (α : Type) where
  | absent : RawVal α
  | null : RawVal α
  | val : α → RawVal α

/-- The raw JSON body of a `POST /matches/` or `PUT /matches/{id}` request,
before pydantic validates it against `MatchCreate`. -/
structure RawMatchPayload where
  tournament_id : RawVal Nat
  team1 : RawVal String
  team2 : RawVal String
  date : RawVal Datetime
  location : RawVal String
  status : RawVal String
  score1 : RawVal Int
  score2 : RawVal Int
  shotsOnGoal1 : RawVal Int
  shotsOnGoal2 : RawVal Int
  shotsOnTarget1 : RawVal Int
  shotsOnTarget2 : RawVal Int
  yellowCards1 : RawVal Int
  yellowCards2 : RawVal Int
  redCards1 : RawVal Int
  redCards2 : RawVal Int
  corners1 : RawVal Int
  corners2 : RawVal Int
  possession1 : RawVal Int
  possession2 : RawVal Int
  start_time : RawVal Datetime
  duration : RawVal Int
  goalScorers1 : RawVal (List String)
  goalScorers2 : RawVal (List String)
  yellowCardPlayers1 : RawVal (List String)
  yellowCardPlayers2 : RawVal (List String)
  redCardPlayers1 : RawVal (List String)
  redCardPlayers2 : RawVal (List String)
  match_type : RawVal String
  referee : RawVal String
  stage : RawVal String

/-- A required, non-nullable `MatchCreate` field: validation fails unless a
value was supplied. -/
def reqField {α : Type} : RawVal α → Option α
  | .val v => some v
  | _ => none

/-- An optional `MatchCreate` field: absent stays unset (so excluded by
`dict(exclude_unset=True)`); `null` and a value are both recorded as set. -/
def optPatch {α : Type} : RawVal α → Patch α
  | .absent => .unset
  | .null => .set none
  | .val v => .set (some v)

/-- An optional field of which only the value is consulted. -/
def optValue {α : Type} : RawVal α → Option α
  | .val v => some v
  | _ => none

/-- pydantic validation of the request body against `MatchCreate`
(src/models.py lines 5-36): `team1`, `team2`, `date`, `location`, `status`,
`score1` and `score2` are required, so a body omitting any of them is
rejected (FastAPI answers 422 before the handler runs). -/
def parseMatchCreate (p : RawMatchPayload) : Option MatchCreate := do
  let team1 ← reqField p.team1
  let team2 ← reqField p.team2
  let date ← reqField p.date
  let location ← reqField p.location
  let status ← reqField p.status
  let score1 ← reqField p.score1
  let score2 ← reqField p.score2
  some { tournament_id := optPatch p.tournament_id
         team1 := team1
         team2 := team2
         date := date
         location := location
         status := status
         score1 := score1
         score2 := score2
         shotsOnGoal1 := optPatch p.shotsOnGoal1
         shotsOnGoal2 := optPatch p.shotsOnGoal2
         shotsOnTarget1 := optPatch p.shotsOnTarget1
         shotsOnTarget2 := optPatch p.shotsOnTarget2
         yellowCards1 := optPatch p.yellowCards1
         yellowCards2 := optPatch p.yellowCards2
         redCards1 := optPatch p.redCards1
         redCards2 := optPatch p.redCards2
         corners1 := optPatch p.corners1
         corners2 := optPatch p.corners2
         possession1 := optPatch p.possession1
         possession2 := optPatch p.possession2
         start_time := optValue p.start_time
         duration := optPatch p.duration
         goalScorers1 := optPatch p.goalScorers1
         goalScorers2 := optPatch p.goalScorers2
         yellowCardPlayers1 := optPatch p.yellowCardPlayers1
         yellowCardPlayers2 := optPatch p.yellowCardPlayers2
         redCardPlayers1 := optPatch p.redCardPlayers1
         redCardPlayers2 := optPatch p.redCardPlayers2
         match_type := optPatch p.match_type
         referee := optPatch p.referee
         stage := optPatch p.stage }

/-- `PUT /matches/{match_id}` seen from the client, body validation
included: FastAPI rejects a body that fails `MatchCreate` validation with
`422 Unprocessable Entity` before the handler runs. -/
def update_match_endpoint (db : DB) (match_id : Nat) (p : RawMatchPayload)
    (now : Datetime) : Except HErr MatchPydantic × DB :=
  match parseMatchCreate p with
  | none => (Except.error ⟨422, "Unprocessable Entity"⟩, db)
  | some m => update_match db match_id m now

/-- A minimal valid payload: exactly the required fields, every optional
field absent. -/
def basePayload : MatchCreate :=
  { tournament_id := Patch.unset
    team1 := "A"
    team2 := "B"
    date := 1000
    location := "L"
    status := "Scheduled"
    score1 := 0
    score2 := 0
    shotsOnGoal1 := Patch.unset
    shotsOnGoal2 := Patch.unset
    shotsOnTarget1 := Patch.unset
    shotsOnTarget2 := Patch.unset
    yellowCards1 := Patch.unset
    yellowCards2 := Patch.unset
    redCards1 := Patch.unset
    redCards2 := Patch.unset
    corners1 := Patch.unset
    corners2 := Patch.unset
    possession1 := Patch.unset
    possession2 := Patch.unset
    start_time := none
    duration := Patch.unset
    goalScorers1 := Patch.unset
    goalScorers2 := Patch.unset
    yellowCardPlayers1 := Patch.unset
    yellowCardPlayers2 := Patch.unset
    redCardPlayers1 := Patch.unset
    redCardPlayers2 := Patch.unset
    match_type := Patch.unset
    referee := Patch.unset
    stage := Patch.unset }

/-- The store before any request. -/
def emptyDB : DB := { matchRows := [], tournaments := [], nextMatchId := 1 }

/-- A stored row as `create_match` would produce it from `basePayload`. -/
def baseRow : MatchRow := rowOfCreate basePayload 1

/-- A store holding exactly `baseRow`. -/
def dbOneRow : DB := { matchRows := [baseRow], tournaments := [], nextMatchId := 2 }

/-- C1: the claim says a valid creation (timestamp within the 5-minute
window) succeeds and echoes the list sub-fields back.  In the code the row
is inserted, but the response `MatchPydantic(**db_match.dict())` validates
the raw JSON text of the list column against `Optional[List[str]]`, which
pydantic v1 rejects, and the blanket `except` turns that into a 500: the
client gets an error even though the row (with the encoded list) was
committed. -/
theorem create_match_nonempty_list_bug :
    (create_match emptyDB
        { basePayload with goalScorers1 := Patch.set (some ["Alice"]) } 1000).1 =
      Except.error ⟨500, "Internal server error: validation error"⟩ ∧
    ((create_match emptyDB
        { basePayload with goalScorers1 := Patch.set (some ["Alice"]) } 1000).2.matchRows.map
      MatchRow.goalScorers1) = [some "[\"Alice\"]"] :=
  ⟨rfl, rfl⟩

/-- C2: a creation backdated by 10 minutes is rejected and nothing is
inserted, but the `HTTPException(400, ...)` raised by the check is caught by
the handler's own `except Exception` and re-raised as a 500, so the client
sees a 500, not a 400. -/
theorem create_match_backdated_bug :
    create_match emptyDB { basePayload with date := 400 } 1000 =
      (Except.error ⟨500,
        "Internal server error: 400: Cannot create a match more than 5 minutes in the past"⟩,
       emptyDB) :=
  rfl

/-- C3: updating a match id with no corresponding row changes nothing, but
the `HTTPException(404, "Match not found")` is caught by the handler's own
blanket `except` and surfaces to the client as a 500, not a 404. -/
theorem update_match_unknown_id (db : DB) (i : Nat) (m : MatchCreate)
    (now : Datetime) (h : ∀ r ∈ db.matchRows, r.id ≠ some i) :
    update_match db i m now =
      (Except.error ⟨500, "Internal server error: 404: Match not found"⟩, db) := by
  have hf : db.matchRows.find? (fun r => r.id == some i) = none := by
    rw [List.find?_eq_none]
    intro r hr
    simp only [beq_iff_eq]
    exact h r hr
  unfold update_match
  rw [hf]
  rfl

theorem update_match_unknown_id_witness :
    update_match emptyDB 1 basePayload 0 =
      (Except.error ⟨500, "Internal server error: 404: Match not found"⟩, emptyDB) :=
  update_match_unknown_id emptyDB 1 basePayload 0
    (by intro r hr; simp [emptyDB] at hr)

/-- A creation payload naming a tournament id. -/
def tournamentPayload : MatchCreate :=
  { basePayload with tournament_id := Patch.set (some 7) }

/-- C4: creating a match whose `tournament_id` matches no Tournament row
inserts nothing, but the `HTTPException(404, "Tournament not found")` is
caught by the handler's own blanket `except` and surfaces to the client as
a 500, not a 404. -/
theorem create_match_unknown_tournament (db : DB) (m : MatchCreate)
    (now : Datetime) (tid : Nat) (hdate : ¬ m.date < now - 300)
    (ht : m.tournament_id.getD none = some tid)
    (habs : ∀ t ∈ db.tournaments, t.id ≠ some tid) :
    create_match db m now =
      (Except.error ⟨500, "Internal server error: 404: Tournament not found"⟩, db) := by
  have hf : db.tournaments.find? (fun t => t.id == some tid) = none := by
    rw [List.find?_eq_none]
    intro t htt
    simp only [beq_iff_eq]
    exact habs t htt
  unfold create_match
  rw [if_neg hdate]
  simp only [ht, hf]
  rfl

theorem create_match_unknown_tournament_witness :
    create_match emptyDB tournamentPayload 1000 =
      (Except.error ⟨500, "Internal server error: 404: Tournament not found"⟩, emptyDB) :=
  create_match_unknown_tournament emptyDB tournamentPayload 1000 7
    (by decide) rfl (by intro t htt; simp [emptyDB] at htt)

/-- A payload carrying the in-progress status label. -/
def inProgressPayload : MatchCreate := { basePayload with status := "Идет" }

/-- `inProgressPayload` with an explicit `start_time`. -/
def inProgressExplicit : MatchCreate :=
  { inProgressPayload with start_time := some 99 }

/-- A stored row whose `start_time` is already set. -/
def startedRow : MatchRow := { baseRow with start_time := some "50" }

/-- C5: on update, an incoming status equal to the in-progress label "Идет"
with the stored `start_time` unset stamps `start_time` with the current
time; once `start_time` is set the same status does not re-stamp; and an
explicitly supplied `start_time` overrides the derived value. -/
theorem update_status_stamps_start_time :
    (∀ (r : MatchRow) (m : MatchCreate) (now : Datetime),
        m.status = "Идет" → r.start_time = none → m.start_time = none →
        (applyUpdate r m now).start_time = some (isoformat now)) ∧
    (∀ (r : MatchRow) (m : MatchCreate) (now : Datetime) (s : String),
        r.start_time = some s → m.start_time = none →
        (applyUpdate r m now).start_time = some s) ∧
    (∀ (r : MatchRow) (m : MatchCreate) (now t : Datetime),
        m.start_time = some t →
        (applyUpdate r m now).start_time = some (isoformat t)) := by
  refine ⟨?_, ?_, ?_⟩
  · intro r m now h1 h2 h3
    simp [applyUpdate, h1, h2, h3]
  · intro r m now s h1 h2
    simp [applyUpdate, h1, h2]
  · intro r m now t h1
    simp [applyUpdate, h1]

theorem update_status_stamps_start_time_witness :
    (applyUpdate baseRow inProgressPayload 50).start_time = some (isoformat 50) ∧
    (applyUpdate startedRow inProgressPayload 60).start_time = some "50" ∧
    (applyUpdate baseRow inProgressExplicit 70).start_time = some (isoformat 99) :=
  ⟨update_status_stamps_start_time.1 baseRow inProgressPayload 50 rfl rfl rfl,
   update_status_stamps_start_time.2.1 startedRow inProgressPayload 60 "50" rfl rfl,
   update_status_stamps_start_time.2.2 baseRow inProgressExplicit 70 99 rfl⟩

/-- C10: an update can never clear a set `start_time`: the column is
excluded from the merged dict, the derived stamp only adds a value, and an
explicit `start_time` is applied only when truthy (a `datetime`), never as
NULL; so once non-NULL it stays non-NULL, and with no incoming value it is
unchanged. -/
theorem start_time_never_cleared :
    (∀ (r : MatchRow) (m : MatchCreate) (now : Datetime),
        r.start_time ≠ none → (applyUpdate r m now).start_time ≠ none) ∧
    (∀ (r : MatchRow) (m : MatchCreate) (now : Datetime) (s : String),
        m.start_time = none → r.start_time = some s →
        (applyUpdate r m now).start_time = some s) := by
  constructor
  · intro r m now h
    cases hst : m.start_time with
    | some t => simp [applyUpdate, hst]
    | none =>
      cases hr : r.start_time with
      | none => exact absurd hr h
      | some s => simp [applyUpdate, hst, hr]
  · intro r m now s h1 h2
    simp [applyUpdate, h1, h2]

theorem start_time_never_cleared_witness :
    (applyUpdate startedRow basePayload 0).start_time ≠ none ∧
    (applyUpdate startedRow basePayload 0).start_time = some "50" :=
  ⟨start_time_never_cleared.1 startedRow basePayload 0 (by decide),
   start_time_never_cleared.2 startedRow basePayload 0 "50" rfl rfl⟩

/-- C7: the list-field codec round-trips: a non-empty list of strings
decodes back exactly, NULL decodes to absent, and an empty list is
normalized to absent; encoding a null/absent value is a plain `None`, not
an error. -/
theorem codec_roundtrip :
    (∀ xs : List String, xs ≠ [] →
        decodeField (encodeField (some xs)) = some (some xs)) ∧
    decodeField (encodeField none) = some none ∧
    decodeField (encodeField (some [])) = some none := by
  refine ⟨?_, rfl, rfl⟩
  intro xs h
  obtain ⟨y, ys, rfl⟩ := List.exists_cons_of_ne_nil h
  have he : encodeField (some (y :: ys)) = some (dumpsList (y :: ys)) := rfl
  rw [he]
  have hne := dumpsList_ne_empty (y :: ys)
  simp [decodeField, hne, loads_dumps (y :: ys) (List.cons_ne_nil y ys)]

theorem codec_roundtrip_witness :
    decodeField (encodeField (some ["Alice", "Bob"])) = some (some ["Alice", "Bob"]) :=
  codec_roundtrip.1 ["Alice", "Bob"] (by decide)

/-- C8: listing a tournament's matches only filters on `tournament_id`
equality — the tournament itself is never looked up — so any id without
matching rows (including ids of absent tournaments) yields an empty
sequence, not an error. -/
theorem tournament_matches_empty (db : DB) (tid : Nat)
    (h : ∀ r ∈ db.matchRows, r.tournament_id ≠ some tid) :
    get_tournament_matches db tid = Except.ok [] := by
  have hfil : db.matchRows.filter (fun r => r.tournament_id == some tid) = [] := by
    rw [List.filter_eq_nil_iff]
    intro r hr
    simp only [beq_iff_eq]
    exact h r hr
  unfold get_tournament_matches
  rw [hfil]
  rfl

theorem tournament_matches_empty_witness :
    get_tournament_matches dbOneRow 5 = Except.ok [] :=
  tournament_matches_empty dbOneRow 5
    (by intro r hr; simp [dbOneRow] at hr; subst hr; decide)

/-- A raw request body supplying only `{"score1": 3}`. -/
def rawOnlyScore1 : RawMatchPayload :=
  { tournament_id := RawVal.absent
    team1 := RawVal.absent
    team2 := RawVal.absent
    date := RawVal.absent
    location := RawVal.absent
    status := RawVal.absent
    score1 := RawVal.val 3
    score2 := RawVal.absent
    shotsOnGoal1 := RawVal.absent
    shotsOnGoal2 := RawVal.absent
    shotsOnTarget1 := RawVal.absent
    shotsOnTarget2 := RawVal.absent
    yellowCards1 := RawVal.absent
    yellowCards2 := RawVal.absent
    redCards1 := RawVal.absent
    redCards2 := RawVal.absent
    corners1 := RawVal.absent
    corners2 := RawVal.absent
    possession1 := RawVal.absent
    possession2 := RawVal.absent
    start_time := RawVal.absent
    duration := RawVal.absent
    goalScorers1 := RawVal.absent
    goalScorers2 := RawVal.absent
    yellowCardPlayers1 := RawVal.absent
    yellowCardPlayers2 := RawVal.absent
    redCardPlayers1 := RawVal.absent
    redCardPlayers2 := RawVal.absent
    match_type := RawVal.absent
    referee := RawVal.absent
    stage := RawVal.absent }

/-- C6 counterexample: a request body supplying only `{score1: 3}` does not
reach the handler at all — `MatchCreate` requires `team1`, `team2`, `date`,
`location`, `status`, `score1` and `score2`, so body validation rejects it
(422) and no update happens: the claimed update "succeeds and leaves other
fields unchanged" is false as stated. -/
theorem update_only_score1_rejected :
    update_match_endpoint dbOneRow 1 rawOnlyScore1 0 =
      (Except.error ⟨422, "Unprocessable Entity"⟩, dbOneRow) :=
  rfl

/-- The update payload supplies no optional field (and no `start_time`
value): exactly the seven required fields. -/
def suppliesOnlyRequired (m : MatchCreate) : Prop :=
  m.tournament_id = Patch.unset ∧
  m.shotsOnGoal1 = Patch.unset ∧
  m.shotsOnGoal2 = Patch.unset ∧
  m.shotsOnTarget1 = Patch.unset ∧
  m.shotsOnTarget2 = Patch.unset ∧
  m.yellowCards1 = Patch.unset ∧
  m.yellowCards2 = Patch.unset ∧
  m.redCards1 = Patch.unset ∧
  m.redCards2 = Patch.unset ∧
  m.corners1 = Patch.unset ∧
  m.corners2 = Patch.unset ∧
  m.possession1 = Patch.unset ∧
  m.possession2 = Patch.unset ∧
  m.start_time = none ∧
  m.duration = Patch.unset ∧
  m.goalScorers1 = Patch.unset ∧
  m.goalScorers2 = Patch.unset ∧
  m.yellowCardPlayers1 = Patch.unset ∧
  m.yellowCardPlayers2 = Patch.unset ∧
  m.redCardPlayers1 = Patch.unset ∧
  m.redCardPlayers2 = Patch.unset ∧
  m.match_type = Patch.unset ∧
  m.referee = Patch.unset ∧
  m.stage = Patch.unset

/-- C6 amended: only fields present in the update payload are applied and
every *unsupplied optional* field (the list sub-fields included) retains its
stored value — but the seven required fields must be supplied in every
update and are then always written (`date` included, since a datetime is
always truthy), so a payload carrying only `{score1: 3}` is impossible: the
minimal update carries the required fields, and then the row changes in
exactly those fields (plus the status-triggered `start_time` stamp). -/
theorem update_match_frame (r : MatchRow) (m : MatchCreate) (now : Datetime)
    (h : suppliesOnlyRequired m) :
    applyUpdate r m now =
      { r with
        team1 := m.team1
        team2 := m.team2
        date := isoformat m.date
        location := m.location
        status := m.status
        score1 := m.score1
        score2 := m.score2
        start_time := if m.status = "Идет" ∧ r.start_time = none then some (isoformat now) else r.start_time } := by
  obtain ⟨h1, h2, h3, h4, h5, h6, h7, h8, h9, h10, h11, h12, h13, h14, h15,
    h16, h17, h18, h19, h20, h21, h22, h23, h24⟩ := h
  simp [applyUpdate, h1, h2, h3, h4, h5, h6, h7, h8, h9, h10, h11, h12, h13,
    h14, h15, h16, h17, h18, h19, h20, h21, h22, h23, h24, Patch.getD]

/-- `basePayload` with `score1 := 3`. -/
def payloadScore3 : MatchCreate := { basePayload with score1 := 3 }

theorem update_match_frame_witness :
    applyUpdate baseRow payloadScore3 5 =
      { baseRow with
        team1 := payloadScore3.team1
        team2 := payloadScore3.team2
        date := isoformat payloadScore3.date
        location := payloadScore3.location
        status := payloadScore3.status
        score1 := payloadScore3.score1
        score2 := payloadScore3.score2
        start_time := if payloadScore3.status = "Идет" ∧ baseRow.start_time = none then some (isoformat 5) else baseRow.start_time } :=
  update_match_frame baseRow payloadScore3 5
    ⟨rfl, rfl, rfl, rfl, rfl, rfl, rfl, rfl, rfl, rfl, rfl, rfl, rfl, rfl,
     rfl, rfl, rfl, rfl, rfl, rfl, rfl, rfl, rfl, rfl⟩

/-- The storage invariant for one list column: NULL or the JSON encoding of
a non-empty list of strings. -/
def goodCol (c : Option String) : Prop :=
  c = none ∨ ∃ xs : List String, xs ≠ [] ∧ c = some (dumpsList xs)

/-- The storage invariant for all six list columns of a Match row. -/
def goodRow (r : MatchRow) : Prop :=
  goodCol r.goalScorers1 ∧ goodCol r.goalScorers2 ∧
  goodCol r.yellowCardPlayers1 ∧ goodCol r.yellowCardPlayers2 ∧
  goodCol r.redCardPlayers1 ∧ goodCol r.redCardPlayers2

theorem encodeField_good (v : Option (List String)) : goodCol (encodeField v) := by
  match v with
  | none => exact Or.inl rfl
  | some [] => exact Or.inl rfl
  | some (x :: xs) => exact Or.inr ⟨x :: xs, List.cons_ne_nil x xs, rfl⟩

theorem goodRow_rowOfCreate (m : MatchCreate) (i : Nat) :
    goodRow (rowOfCreate m i) :=
  ⟨encodeField_good _, encodeField_good _, encodeField_good _,
   encodeField_good _, encodeField_good _, encodeField_good _⟩

theorem goodCol_patchField (p : Patch (List String)) (old : Option String)
    (h : goodCol old) :
    goodCol (match p with | Patch.unset => old | Patch.set v => encodeField v) := by
  cases p with
  | unset => exact h
  | set v => exact encodeField_good v

theorem goodRow_applyUpdate (r : MatchRow) (m : MatchCreate) (now : Datetime)
    (h : goodRow r) : goodRow (applyUpdate r m now) := by
  obtain ⟨h1, h2, h3, h4, h5, h6⟩ := h
  exact ⟨goodCol_patchField m.goalScorers1 r.goalScorers1 h1,
         goodCol_patchField m.goalScorers2 r.goalScorers2 h2,
         goodCol_patchField m.yellowCardPlayers1 r.yellowCardPlayers1 h3,
         goodCol_patchField m.yellowCardPlayers2 r.yellowCardPlayers2 h4,
         goodCol_patchField m.redCardPlayers1 r.redCardPlayers1 h5,
         goodCol_patchField m.redCardPlayers2 r.redCardPlayers2 h6⟩

theorem mem_create_match_commit (db : DB) (m : MatchCreate) (r2 : MatchRow)
    (hdb : ∀ r ∈ db.matchRows, goodRow r)
    (hr2 : r2 ∈ (create_match_commit db m).2.matchRows) : goodRow r2 := by
  have hr2a : r2 ∈ db.matchRows ++ [rowOfCreate m db.nextMatchId] := hr2
  simp only [List.mem_append, List.mem_singleton] at hr2a
  rcases hr2a with hmem | hmem
  · exact hdb r2 hmem
  · subst hmem
    exact goodRow_rowOfCreate m db.nextMatchId

/-- C9 (implicit invariant): after every create and every update, each of
the six list columns of every stored row is NULL or the JSON encoding of a
non-empty list of strings; the text `"[]"` never reaches storage. -/
theorem stored_lists_invariant :
    (∀ (db : DB) (m : MatchCreate) (now : Datetime) (r2 : MatchRow),
        (∀ r ∈ db.matchRows, goodRow r) →
        r2 ∈ (create_match db m now).2.matchRows → goodRow r2) ∧
    (∀ (db : DB) (i : Nat) (m : MatchCreate) (now : Datetime) (r2 : MatchRow),
        (∀ r ∈ db.matchRows, goodRow r) →
        r2 ∈ (update_match db i m now).2.matchRows → goodRow r2) ∧
    (∀ c, goodCol c → c ≠ some "[]") := by
  refine ⟨?_, ?_, ?_⟩
  · intro db m now r2 hdb hr2
    unfold create_match at hr2
    dsimp only at hr2
    split at hr2
    · exact hdb r2 hr2
    · split at hr2
      · split at hr2
        · exact hdb r2 hr2
        · exact mem_create_match_commit db m r2 hdb hr2
      · exact mem_create_match_commit db m r2 hdb hr2
  · intro db i m now r2 hdb hr2
    unfold update_match at hr2
    dsimp only at hr2
    split at hr2
    · exact hdb r2 hr2
    · have hr2a : r2 ∈ db.matchRows.map
          (fun x => if x.id == some i then applyUpdate x m now else x) := hr2
      simp only [List.mem_map] at hr2a
      obtain ⟨x, hx, rfl⟩ := hr2a
      by_cases hid : (x.id == some i) = true
      · simp only [hid, if_true]
        exact goodRow_applyUpdate x m now (hdb x hx)
      · simp only [hid, if_false]
        exact hdb x hx
  · intro c hc
    rcases hc with rfl | ⟨xs, hne, rfl⟩
    · simp
    · intro hcontra
      exact dumpsList_ne_brackets xs hne (Option.some.inj hcontra)

theorem stored_lists_invariant_witness :
    goodRow (rowOfCreate basePayload 1) ∧
    goodRow (applyUpdate baseRow basePayload 0) ∧
    (none : Option String) ≠ some "[]" := by
  refine ⟨?_, ?_, ?_⟩
  · apply stored_lists_invariant.1 emptyDB basePayload 1000 (rowOfCreate basePayload 1)
    · intro r hr
      simp [emptyDB] at hr
    · have hEq : (create_match emptyDB basePayload 1000).2.matchRows =
          [rowOfCreate basePayload 1] := rfl
      rw [hEq]
      exact List.mem_singleton.mpr rfl
  · apply stored_lists_invariant.2.1 dbOneRow 1 basePayload 0
      (applyUpdate baseRow basePayload 0)
    · intro r hr
      simp only [dbOneRow, List.mem_singleton] at hr
      subst hr
      exact goodRow_rowOfCreate basePayload 1
    · have hEq : (update_match dbOneRow 1 basePayload 0).2.matchRows =
          [applyUpdate baseRow basePayload 0] := rfl
      rw [hEq]
      exact List.mem_singleton.mpr rfl
  · exact stored_lists_invariant.2.2 none (Or.inl rfl)
